import Mathlib

/-!
Verification development for the aomail email-assistant backend
(ingestion and enrichment core). The definitions below are a shallow
embedding of the Python source under src/backend/MailAssistant:
pure computations become Lean functions, Django ORM state becomes an
explicit record of tables threaded through the operations, network and
LLM interactions become oracle inputs, and an uncaught Python exception
becomes an explicit outcome constructor. Machine integers do not
overflow in any modelled computation, so Nat and Int are used directly.
-/

/-- Modelled from the spec: priority label constants imported from
MailAssistant.constants (the constants module is not under src/);
the spec fixes priority to the set of important, information, useless. -/
def IMPORTANT : String := "important"

/-- Modelled from the spec: the information priority label. -/
def INFORMATION : String := "information"

/-- Modelled from the spec: the useless priority label. -/
def USELESS : String := "useless"

/-- Modelled from the spec: the name of the default category every user
owns; the constants module defining DEFAULT_CATEGORY is not under src/. -/
def DEFAULT_CATEGORY : String := "default"

/-- Modelled from the spec: the server-configured Microsoft webhook
shared secret (MICROSOFT_CLIENT_STATE in the constants module, which is
not under src/). Its concrete value is irrelevant; handlers compare
deliveries against it for equality. -/
def MICROSOFT_CLIENT_STATE : String := "ms-client-state-secret"

/-- Modelled from the spec: retry cap for the background ingestion
worker (MAX_RETRIES in the constants module, default 3 per the spec). -/
def MAX_RETRIES : Nat := 3

/-- Modelled from the spec: provider tag stored on Microsoft emails. -/
def MICROSOFT_PROVIDER : String := "microsoft"

/-! ## Priority projection (email_to_db, microsoft_api.py lines 1662-1682) -/

/-- Mapping of an importance-distribution key to a priority label, as
performed inside the maximum-search loop of email_to_db. -/
def mapImportanceKey (k : String) : String :=
  if k = "Promotional" ∨ k = "News" then USELESS
  else if k = "RoutineWorkUpdates" ∨ k = "InternalCommunications" then INFORMATION
  else if k = "UrgentWorkInformation" then IMPORTANT
  else k

/-- The maximum-search loop over importance_dict.items(): carries the
current importance label and the running maximum percentage. A strictly
greater value replaces both. -/
def priorityLoop : List (String × Nat) → String → Nat → String × Nat
  | [], imp, maxp => (imp, maxp)
  | kv :: rest, imp, maxp =>
    if kv.2 > maxp then priorityLoop rest (mapImportanceKey kv.1) kv.2
    else priorityLoop rest imp maxp

/-- Lookup of a key in a dict modelled as an association list (first
binding wins, mirroring the unique keys of a Python dict). -/
def dictLookup : List (String × Nat) → String → Option Nat
  | [], _ => none
  | kv :: rest, k => if kv.1 = k then some kv.2 else dictLookup rest k

/-- The priority projection of email_to_db: important when the
UrgentWorkInformation percentage is at least 50, otherwise the mapped
label of the running maximum, information when all values are zero.
Returns none when the dict lacks the UrgentWorkInformation key, where
the Python code would raise KeyError. -/
def computeImportance (d : List (String × Nat)) : Option String :=
  match dictLookup d "UrgentWorkInformation" with
  | none => none
  | some urgent =>
    if urgent ≥ 50 then some IMPORTANT
    else
      let r := priorityLoop d "" 0
      if r.2 = 0 then some INFORMATION else some r.1

/-! ## Secret vault (tests/__test_crypt.py)

The AES block cipher and the base64 codec live in the external
cryptography library, so they enter the model as function parameters
constrained by their inverse laws; the code under src/ contributes the
space padding, the base64 wrapping and the rstrip unpadding. Plaintext
and ciphertext are byte sequences (the source byte-length and
character-length coincide on the ASCII plaintexts considered here). -/

/-- Space padding applied by encrypt_unsalted: appends 16 - len % 16
space bytes (always at least one block of padding when the length is a
multiple of 16, exactly as the Python expression computes). -/
def padPlaintext (p : List Nat) : List Nat :=
  p ++ List.replicate (16 - p.length % 16) 32

/-- Whitespace bytes stripped by bytes.rstrip in decrypt_unsalted. -/
def isSpaceByte (b : Nat) : Bool :=
  b = 32 ∨ b = 9 ∨ b = 10 ∨ b = 13 ∨ b = 11 ∨ b = 12

/-- Right strip of trailing whitespace bytes, as bytes.rstrip does. -/
def rstripBytes (p : List Nat) : List Nat :=
  (p.reverse.dropWhile isSpaceByte).reverse

/-- Embedding of encrypt_unsalted: pad with spaces, apply the AES-ECB
encryptor, base64-encode. The cipher and codec are parameters. -/
def encrypt_unsalted (aesEnc b64enc : List Nat → List Nat) (p : List Nat) : List Nat :=
  b64enc (aesEnc (padPlaintext p))

/-- Embedding of decrypt_unsalted: base64-decode, apply the AES-ECB
decryptor, strip trailing whitespace. -/
def decrypt_unsalted (aesDec b64dec : List Nat → List Nat) (c : List Nat) : List Nat :=
  rstripBytes (aesDec (b64dec c))

/-- Embedding of encrypt_text: a direct call into the Fernet encryptor
of the cryptography library (the source adds only the str-bytes
conversions). -/
def encrypt_text (fernetEnc : List Nat → List Nat) (p : List Nat) : List Nat :=
  fernetEnc p

/-- Embedding of decrypt_text: a direct call into the Fernet decryptor. -/
def decrypt_text (fernetDec : List Nat → List Nat) (c : List Nat) : List Nat :=
  fernetDec c

/-! ## Relational state

Record types mirror the Django models used by the ingestion core.
The models module imported by microsoft_api.py (carrying SocialAPI with
email and user_description, MicrosoftListener, Preference.language,
KeyPoint, Contact) is not under src/ (src holds an earlier iteration of
models.py); the fields below are modelled from the spec data model
(section 3) and from the field accesses in the source under src/.
Primary keys of senders are explicit so that rules reference a sender
row, as the Rule.sender foreign key does. -/

/-- Sender row: (id, email, name); deduplicated on email. -/
structure SenderRec where
  id : Nat
  email : String
  name : String
deriving DecidableEq, Repr

/-- Category row: (name, user). -/
structure CategoryRec where
  name : String
  user : Nat
deriving DecidableEq, Repr

/-- Rule row: sender-scoped, with a block flag and an optional forced
category. -/
structure RuleRec where
  sender_id : Nat
  user : Nat
  block : Bool
  category : Option CategoryRec
deriving DecidableEq, Repr

/-- Email row, with the fields written by email_to_db. -/
structure EmailRec where
  provider_id : String
  email_provider : String
  email_short_summary : String
  content : String
  subject : String
  priority : String
  read : Bool
  answer_later : Bool
  sender_id : Nat
  category : CategoryRec
  user : Nat
  date : Option Int
  web_link : String
  has_attachments : Bool
  answer : String
  relevance : String
deriving DecidableEq, Repr

/-- KeyPoint row; position is set only for reply conversations. -/
structure KeyPointRec where
  is_reply : Bool
  position : Option Nat
  category : String
  organization : String
  topic : String
  content : String
  email_pid : String
deriving DecidableEq, Repr

/-- BulletPoint row. -/
structure BulletPointRec where
  content : String
  email_pid : String
deriving DecidableEq, Repr

/-- Contact row. -/
structure ContactRec where
  user : Nat
  email : String
  username : String
  provider_id : String
deriving DecidableEq, Repr

/-- MicrosoftListener row: a live Microsoft subscription. -/
structure ListenerRec where
  subscription_id : String
  user : Nat
  email : String
deriving DecidableEq, Repr

/-- Preference row (only the language field is read by the core). -/
structure PreferenceRec where
  user : Nat
  language : String
deriving DecidableEq, Repr

/-- SocialAPI row: linked provider account with its tokens. -/
structure SocialAPIRec where
  user : Nat
  email : String
  type_api : String
  access_token : String
  refresh_token : String
  user_description : Option String
deriving DecidableEq, Repr

/-- The database state threaded through the operations. sender_seq is
the autoincrement counter backing fresh sender primary keys. -/
structure DB where
  emails : List EmailRec
  senders : List SenderRec
  sender_seq : Nat
  categories : List CategoryRec
  rules : List RuleRec
  keypoints : List KeyPointRec
  bulletpoints : List BulletPointRec
  contacts : List ContactRec
  listeners : List ListenerRec
  preferences : List PreferenceRec
  social_apis : List SocialAPIRec
deriving DecidableEq, Repr

/-- Django Model.objects.get semantics: the unique match, none when the
row is absent (DoesNotExist) or ambiguous (MultipleObjectsReturned);
both surface as exceptions at the call site. -/
def djangoGet {α : Type} : List α → Option α
  | [a] => some a
  | _ => none

/-! ## Token refresh (microsoft_api.py lines 242-299) -/

/-- Oracle for the network interactions of refresh_access_token: the
outcome of the is_token_valid probe (a GET on the identity endpoint)
and the access_token field of the token-endpoint response, none when
the provider rejected the refresh. -/
structure RefreshOracle where
  token_valid : Bool
  response_access_token : Option String
deriving DecidableEq, Repr

/-- Embedding of refresh_access_token: when the probe succeeds, the
stored token is returned and nothing is saved; otherwise the refresh
response decides. Returns the produced access token (none on refresh
failure) paired with the saved SocialAPI row when a save occurred. -/
def refresh_access_token (sapi : SocialAPIRec) (o : RefreshOracle) :
    Option String × Option SocialAPIRec :=
  if o.token_valid then (some sapi.access_token, none)
  else
    match o.response_access_token with
    | some t => (some t, some { sapi with access_token := t })
    | none => (none, none)

/-- Applies the social_api.save() of a successful refresh to the
database state: replaces the row keyed by (user, email). -/
def applyTokenSave (db : DB) (user : Nat) (email : String) :
    Option SocialAPIRec → DB
  | none => db
  | some s2 =>
    { db with
      social_apis := db.social_apis.map
        (fun t => if t.user = user ∧ t.email = email then s2 else t) }

/-! ## Ingestion (email_to_db, microsoft_api.py lines 1590-1766) -/

/-- Oracle for get_mail_to_db: the message as fetched from the Graph
API (the returned email_id is the id that was passed in, which
get_mail_to_db forwards unchanged when id_mail is given). -/
structure FetchedMail where
  subject : String
  from_name : String
  from_email : String
  decoded_data : String
  sent_date : Option Int
  web_link : String
  has_attachments : Bool
  is_reply : Bool
deriving DecidableEq, Repr

/-- Oracle for claude.categorize_and_summarize_email. -/
structure Classification where
  topic : String
  importance_dict : List (String × Nat)
  answer : String
  summary_list : List String
  sentence : String
  relevance : String
deriving DecidableEq, Repr

/-- Oracle for Search.summarize_email and summarize_conversation:
keypoints_flat feeds the single-email branch, keypoints_by_turn the
reply branch (conversation keypoints grouped by turn position). -/
structure SummarizeResult where
  category : String
  organization : String
  topic : String
  keypoints_flat : List String
  keypoints_by_turn : List (Nat × List String)
deriving DecidableEq, Repr

/-- Return value of email_to_db: True, False, or str(e) from the
persistence try block. -/
inductive DbResult
  | rtrue
  | rfalse
  | rerr (msg : String)
deriving DecidableEq, Repr

/-- Truthiness of a DbResult under the Python `if result:` test of the
retry loop: True and any non-empty error string are truthy. -/
def DbResult.truthy : DbResult → Bool
  | .rtrue => true
  | .rfalse => false
  | .rerr m => ¬ m = ""

/-- Outcome of a Python call: either a normal return or an uncaught
exception propagating to the caller. -/
inductive PyOutcome
  | ret (r : DbResult)
  | exn
deriving DecidableEq, Repr

/-- The rules loop of email_to_db: returns on the first rule with
block set; otherwise every rule carrying a category overwrites the
current category and sets the rule_category flag. The Bool in the first
component records whether a block rule was reached. -/
def ruleLoop : List RuleRec → CategoryRec → Bool → Bool × CategoryRec × Bool
  | [], cat, rc => (false, cat, rc)
  | r :: rest, cat, rc =>
    if r.block then (true, cat, rc)
    else
      match r.category with
      | some c => ruleLoop rest c true
      | none => ruleLoop rest cat rc

/-- The rules matched against an incoming address, as email_to_db
computes them: the first Sender row with that email is looked up and
the Rule rows referencing it are returned; when no Sender row exists
the Django filter on a None sender matches nothing. -/
def senderRules (db : DB) (from_email : String) : List RuleRec :=
  match (db.senders.filter (fun s => s.email = from_email)).head? with
  | none => []
  | some s => db.rules.filter (fun r => r.sender_id = s.id)

/-- External inputs consumed by one email_to_db attempt. -/
structure IngestInputs where
  refresh : RefreshOracle
  f : FetchedMail
  cls : Classification
  summ : SummarizeResult
deriving Repr

/-- Embedding of email_to_db. Returns the database state at exit, the
outcome (normal return or uncaught exception) and whether the LLM was
invoked (the Search summarize call and the classify call, which the
source always performs together). Exception exits: a missing or
ambiguous SocialAPI row (the None propagates into an attribute access
inside refresh_access_token), a missing default Category or ambiguous
Category get, a missing Preference row, and a missing
UrgentWorkInformation key in the importance dict. -/
def email_to_db (db : DB) (user : Nat) (email : String) (id_email : String)
    (inp : IngestInputs) : DB × PyOutcome × Bool :=
  match djangoGet (db.social_apis.filter
      (fun s => s.user = user ∧ s.email = email)) with
  | none => (db, .exn, false)
  | some social_api =>
    let refreshed := refresh_access_token social_api inp.refresh
    let db0 := applyTokenSave db user email refreshed.2
    if (db0.emails.filter (fun e => e.provider_id = id_email)) ≠ [] then
      (db0, .ret .rtrue, false)
    else
      let sender0 := (db0.senders.filter
        (fun s => s.email = inp.f.from_email)).head?
      if inp.f.decoded_data = "" then (db0, .ret .rfalse, false)
      else
        let category_dict := (db0.categories.filter
          (fun c => c.user = user)).map (fun c => c.name)
        match djangoGet (db0.categories.filter
            (fun c => c.name = DEFAULT_CATEGORY ∧ c.user = user)) with
        | none => (db0, .exn, false)
        | some defaultCat =>
          let rules := senderRules db0 inp.f.from_email
          match ruleLoop rules defaultCat false with
          | (true, _, _) => (db0, .ret .rtrue, false)
          | (false, category0, rule_category) =>
            let _user_description :=
              match social_api.user_description with
              | some d => d
              | none => ""
            match djangoGet (db0.preferences.filter
                (fun p => p.user = user)) with
            | none => (db0, .exn, false)
            | some _pref =>
              match computeImportance inp.cls.importance_dict with
              | none => (db0, .exn, true)
              | some importance =>
                let categoryStep : Option CategoryRec :=
                  if rule_category then some category0
                  else if inp.cls.topic ∈ category_dict then
                    djangoGet (db0.categories.filter
                      (fun c => c.name = inp.cls.topic ∧ c.user = user))
                  else some category0
                match categoryStep with
                | none => (db0, .exn, true)
                | some category =>
                  let senderStep : SenderRec × DB :=
                    match sender0 with
                    | some s => (s, db0)
                    | none =>
                      let sender_name :=
                        if inp.f.from_name = "" then inp.f.from_email
                        else inp.f.from_name
                      let s : SenderRec :=
                        ⟨db0.sender_seq, inp.f.from_email, sender_name⟩
                      (s, { db0 with senders := db0.senders ++ [s],
                                     sender_seq := db0.sender_seq + 1 })
                  let sender := senderStep.1
                  let db1 := senderStep.2
                  let newEmail : EmailRec :=
                    { provider_id := id_email
                      email_provider := MICROSOFT_PROVIDER
                      email_short_summary := inp.cls.sentence
                      content := inp.f.decoded_data
                      subject := inp.f.subject
                      priority := importance
                      read := false
                      answer_later := false
                      sender_id := sender.id
                      category := category
                      user := user
                      date := inp.f.sent_date
                      web_link := inp.f.web_link
                      has_attachments := inp.f.has_attachments
                      answer := inp.cls.answer
                      relevance := inp.cls.relevance }
                  let db2 := { db1 with emails := db1.emails ++ [newEmail] }
                  let kps : List KeyPointRec :=
                    if inp.f.is_reply then
                      inp.summ.keypoints_by_turn.flatMap
                        (fun p => p.2.map (fun kp =>
                          ⟨true, some p.1, inp.summ.category,
                           inp.summ.organization, inp.summ.topic, kp,
                           id_email⟩))
                    else
                      inp.summ.keypoints_flat.map (fun kp =>
                        ⟨false, none, inp.summ.category,
                         inp.summ.organization, inp.summ.topic, kp,
                         id_email⟩)
                  let db3 := { db2 with keypoints := db2.keypoints ++ kps }
                  let existingContacts := db3.contacts.filter (fun c =>
                    c.user = user ∧ c.email = inp.f.from_email ∧
                    c.username = inp.f.from_name)
                  let db4 :=
                    if existingContacts.isEmpty then
                      { db3 with contacts := db3.contacts ++
                        [⟨user, inp.f.from_email, inp.f.from_name, ""⟩] }
                    else db3
                  let db5 := { db4 with bulletpoints := db4.bulletpoints ++
                    inp.cls.summary_list.map (fun p => ⟨p, id_email⟩) }
                  (db5, .ret .rtrue, true)

/-! ## Background worker (MicrosoftEmailNotification.process_email) -/

/-- The retry loop of process_email, indexed by remaining attempts and
the attempt counter. Inputs are an oracle per attempt (each attempt
refetches and reclassifies). Returns the final database state, whether
the LLM was ever invoked, and the number of admin alert emails sent.
A truthy result breaks the loop; an uncaught exception kills the
worker thread. -/
def processEmailFuel (user : Nat) (email : String) (id_email : String)
    (inp : Nat → IngestInputs) : Nat → Nat → DB → DB × Bool × Nat
  | 0, _, db => (db, false, 0)
  | fuel + 1, i, db =>
    match email_to_db db user email id_email (inp i) with
    | (db2, .exn, c) => (db2, c, 0)
    | (db2, .ret r, c) =>
      if r.truthy then (db2, c, 0)
      else
        let rest := processEmailFuel user email id_email inp fuel (i + 1) db2
        (rest.1, c || rest.2.1, rest.2.2 + 1)

/-- The process_email worker: MAX_RETRIES attempts starting at 0. -/
def process_email (db : DB) (user : Nat) (email : String) (id_email : String)
    (inp : Nat → IngestInputs) : DB × Bool × Nat :=
  processEmailFuel user email id_email inp MAX_RETRIES 0 db

/-! ## Microsoft webhook handlers (microsoft_api.py lines 1380-1587) -/

/-- One element of the value array of a Microsoft change notification
body. Expiration timestamps are minutes on an absolute scale. -/
structure MsNotification where
  clientState : String
  changeType : String
  resourceId : String
  subscriptionId : String
  lifecycleEvent : String
  subscriptionExpirationDateTime : Int
deriving DecidableEq, Repr

/-- HTTP response of a webhook handler: the validation-token echo
(text/plain) or a JSON response with its status code. -/
inductive MsResponse
  | validation (token : String)
  | json (status : Nat)
deriving DecidableEq, Repr

/-- Cascade deletion of an Email row located by provider_id, removing
the dependent KeyPoint and BulletPoint rows as the foreign keys
cascade. -/
def deleteEmailCascade (db : DB) (pid : String) : DB :=
  { db with
    emails := db.emails.filter (fun e => ¬ e.provider_id = pid)
    keypoints := db.keypoints.filter (fun k => ¬ k.email_pid = pid)
    bulletpoints := db.bulletpoints.filter (fun b => ¬ b.email_pid = pid) }

/-- Result of the mail notification handler: final state, HTTP
response, whether the LLM was invoked, and admin alerts sent. -/
structure MailHandlerResult where
  db : DB
  response : MsResponse
  classifierCalled : Bool
  alerts : Nat
deriving DecidableEq, Repr

/-- Embedding of MicrosoftEmailNotification.post. The body is none
when the request payload is not valid JSON; an empty value array, a
clientState mismatch, and a deleted notification for an absent
provider_id all surface as the generic 500 JSON error of the except
branches. The spawned worker thread is run to completion inline. -/
def microsoftEmailNotification (db : DB) (validationToken : Option String)
    (body : Option (List MsNotification)) (inp : Nat → IngestInputs) :
    MailHandlerResult :=
  match validationToken with
  | some t => ⟨db, .validation t, false, 0⟩
  | none =>
    match body with
    | none => ⟨db, .json 500, false, 0⟩
    | some value =>
      match value.head? with
      | none => ⟨db, .json 500, false, 0⟩
      | some n0 =>
        if n0.clientState = MICROSOFT_CLIENT_STATE then
          let subscription := db.listeners.filter
            (fun l => l.subscription_id = n0.subscriptionId)
          if n0.changeType = "deleted" then
            match djangoGet (db.emails.filter
                (fun e => e.provider_id = n0.resourceId)) with
            | none => ⟨db, .json 500, false, 0⟩
            | some _ =>
              ⟨deleteEmailCascade db n0.resourceId, .json 202, false, 0⟩
          else
            match subscription.head? with
            | some sub =>
              let worker := process_email db sub.user sub.email
                n0.resourceId inp
              ⟨worker.1, .json 202, worker.2.1, worker.2.2⟩
            | none => ⟨db, .json 202, false, 0⟩
        else ⟨db, .json 500, false, 0⟩

/-! ## Subscription lifecycle (microsoft_api.py lines 1198-1442) -/

/-- Embedding of calculate_expiration_date over minutes on an absolute
Int timescale: now plus the requested delta. -/
def calculate_expiration_date (now : Int) (minutes : Int) : Int :=
  now + minutes

/-- Expiration requested by subscribe_to_email_notifications when
creating a mail subscription (line 1222). -/
def subscribeMailExpiration (now : Int) : Int :=
  calculate_expiration_date now 4230

/-- Expiration requested by subscribe_to_contact_notifications when
creating a contact subscription (line 1276). -/
def subscribeContactExpiration (now : Int) : Int :=
  calculate_expiration_date now 4230

/-- Expiration requested by the PATCH of renew_subscription
(line 1340). -/
def renewRequestExpiration (now : Int) : Int :=
  calculate_expiration_date now 4230

/-- Result of the subscription lifecycle handler: final state, HTTP
response, the renew PATCH calls issued as (subscription_id, requested
expiration), and the reauthorize calls issued. -/
structure SubHandlerResult where
  db : DB
  response : MsResponse
  renewCalls : List (String × Int)
  reauthCalls : List String
deriving DecidableEq, Repr

/-- Embedding of MicrosoftSubscriptionNotification.post. A clientState
mismatch skips the whole block and still answers 202; a missing
MicrosoftListener row raises inside the try and answers 500. The renew
branch fires when the reported expiration is at most 15 minutes away. -/
def microsoftSubscriptionNotification (db : DB)
    (validationToken : Option String) (body : Option (List MsNotification))
    (now : Int) : SubHandlerResult :=
  match validationToken with
  | some t => ⟨db, .validation t, [], []⟩
  | none =>
    match body with
    | none => ⟨db, .json 500, [], []⟩
    | some value =>
      match value.head? with
      | none => ⟨db, .json 500, [], []⟩
      | some n0 =>
        if n0.clientState = MICROSOFT_CLIENT_STATE then
          match djangoGet (db.listeners.filter
              (fun l => l.subscription_id = n0.subscriptionId)) with
          | none => ⟨db, .json 500, [], []⟩
          | some _sub =>
            let renews :=
              if n0.subscriptionExpirationDateTime - now ≤ 15 then
                [(n0.subscriptionId, renewRequestExpiration now)]
              else []
            let reauths :=
              if n0.lifecycleEvent = "reauthorizationRequired" then
                [n0.subscriptionId]
              else []
            ⟨db, .json 202, renews, reauths⟩
        else ⟨db, .json 202, [], []⟩

/-- Result of the contact notification handler. -/
structure ContactHandlerResult where
  db : DB
  response : MsResponse
deriving DecidableEq, Repr

/-- Modelled from the spec: library.save_email_sender (the library
module is not under src/) persists the notified person as a contact
record of the user, keyed by the provider-assigned contact id. -/
def save_email_sender (db : DB) (user : Nat) (name : String)
    (email : String) (id_contact : String) : DB :=
  { db with contacts := db.contacts ++ [⟨user, email, name, id_contact⟩] }

/-- Embedding of MicrosoftContactNotification.post. graphContact is
the oracle for the Graph contact fetch: none when the fetch did not
yield a 200, in which case the later reads of the never-bound name
variable raise and the except branch answers 500. -/
def microsoftContactNotification (db : DB) (validationToken : Option String)
    (body : Option (List MsNotification)) (refreshO : RefreshOracle)
    (graphContact : Option (String × String)) : ContactHandlerResult :=
  match validationToken with
  | some t => ⟨db, .validation t⟩
  | none =>
    match body with
    | none => ⟨db, .json 500⟩
    | some value =>
      match value.head? with
      | none => ⟨db, .json 500⟩
      | some n0 =>
        if n0.clientState = MICROSOFT_CLIENT_STATE then
          match djangoGet (db.listeners.filter
              (fun l => l.subscription_id = n0.subscriptionId)) with
          | none => ⟨db, .json 500⟩
          | some sub =>
            match djangoGet (db.social_apis.filter
                (fun s => s.user = sub.user ∧ s.email = sub.email)) with
            | none => ⟨db, .json 500⟩
            | some sapi =>
              let refreshed := refresh_access_token sapi refreshO
              let db0 := applyTokenSave db sub.user sub.email refreshed.2
              if n0.changeType = "deleted" then
                match djangoGet (db0.contacts.filter
                    (fun c => c.provider_id = n0.resourceId)) with
                | none => ⟨db0, .json 500⟩
                | some _ =>
                  let remaining := db0.contacts.filter
                    (fun c => ¬ c.provider_id = n0.resourceId)
                  ⟨{ db0 with contacts := remaining }, .json 202⟩
              else
                match graphContact with
                | none => ⟨db0, .json 500⟩
                | some nameEmail =>
                  if n0.changeType = "created" then
                    ⟨save_email_sender db0 sub.user nameEmail.1
                      nameEmail.2 n0.resourceId, .json 202⟩
                  else if n0.changeType = "updated" then
                    match djangoGet (db0.contacts.filter
                        (fun c => c.provider_id = n0.resourceId)) with
                    | none => ⟨db0, .json 500⟩
                    | some _ =>
                      ⟨{ db0 with contacts := db0.contacts.map (fun c =>
                          if c.provider_id = n0.resourceId then
                            { c with username := nameEmail.1,
                                     email := nameEmail.2 }
                          else c) }, .json 202⟩
                  else ⟨db0, .json 202⟩
        else ⟨db, .json 500⟩

/-! ## Google ingestion (google_api.py lines 840-1101) -/

/-- Oracle for get_mail on the Google side: the message fetched from
the mailbox (email_to_bdd passes int_mail 0, so the id belongs to the
most recent inbox message, carried here as a field). -/
structure GFetched where
  subject : String
  from_name : String
  from_email : String
  decoded_data : String
  email_id : String
deriving DecidableEq, Repr

/-- Oracle for gpt_3_5_turbo.categorize_and_summarize_email on the
Google side: a seven-tuple of topic, importance (a list indexed at 0
for the stored priority), answer, summary text, sentence, relevance
and importance explanation. -/
structure GClassification where
  topic : String
  importance : List String
  answer : String
  summary : String
  sentence : String
  relevance : String
  importance_explain : String
deriving DecidableEq, Repr

/-- Django get_or_create on Sender keyed by (name, email): reuses the
unique existing row, creates a fresh one when absent, and raises
(none) when the key is ambiguous. -/
def gSenderGetOrCreate (db : DB) (name : String) (email : String) :
    Option (SenderRec × DB) :=
  match db.senders.filter (fun s => s.name = name ∧ s.email = email) with
  | [] =>
    let s : SenderRec := ⟨db.sender_seq, email, name⟩
    some (s, { db with senders := db.senders ++ [s],
                       sender_seq := db.sender_seq + 1 })
  | [s] => some (s, db)
  | _ => none

/-- Django get_or_create on Category keyed by (name, user), with the
same semantics. -/
def gCategoryGetOrCreate (db : DB) (name : String) (user : Nat) :
    Option (CategoryRec × DB) :=
  match db.categories.filter (fun c => c.name = name ∧ c.user = user) with
  | [] =>
    let c : CategoryRec := ⟨name, user⟩
    some (c, { db with categories := db.categories ++ [c] })
  | [c] => some (c, db)
  | _ => none

/-- The bullet-point extraction of email_to_bdd: the summary is split
on newlines, lines whose stripped form starts with a dash-space are
kept, and each kept line is the original line with its first two
characters removed, stripped. -/
def parseBulletLines (summary : String) : List String :=
  ((summary.splitOn "\n").filter
    (fun line => line.trim.startsWith "- ")).map
    (fun line => (line.drop 2).trim)

/-- Embedding of email_to_bdd. Returns the state, whether an uncaught
exception was raised, and whether the classifier was invoked. When an
Email with the provider id already exists the function only logs and
returns. Otherwise, when a Sender row with the address exists, the
code binds rule to a Rule queryset and immediately reads rule.block,
an attribute a queryset does not have, so an AttributeError is raised
before any rule is evaluated, any classifier call, or any persistence.
When no Sender row exists, the aligned else branch runs the full
ingestion: the body is formatted (library.format_mail, an external
text transformation supplied as the formatted oracle), the classifier
is invoked, get_or_create runs for the Sender and for the topic-named
Category, and the Email row is created with the head of the importance
list
as its priority (an empty importance list raises IndexError inside
the try, which only catches IntegrityError), followed by the parsed
BulletPoints when the summary is non-empty. Fields the Google create
does not supply keep their model defaults. -/
def email_to_bdd (db : DB) (user : Nat) (f : GFetched)
    (cls : GClassification) (formatted : String) : DB × Bool × Bool :=
  if (db.emails.filter (fun e => e.provider_id = f.email_id)).isEmpty then
    if (db.senders.filter (fun s => s.email = f.from_email)).isEmpty then
      let content := if f.decoded_data = "" then f.decoded_data
        else formatted
      match gSenderGetOrCreate db f.from_name f.from_email with
      | none => (db, true, true)
      | some senderStep =>
        match gCategoryGetOrCreate senderStep.2 cls.topic user with
        | none => (senderStep.2, true, true)
        | some categoryStep =>
          match cls.importance.head? with
          | none => (categoryStep.2, true, true)
          | some imp0 =>
            let db2 := categoryStep.2
            let newEmail : EmailRec :=
              { provider_id := f.email_id
                email_provider := "Gmail"
                email_short_summary := cls.sentence
                content := content
                subject := f.subject
                priority := imp0
                read := false
                answer_later := false
                sender_id := senderStep.1.id
                category := categoryStep.1
                user := user
                date := none
                web_link := ""
                has_attachments := false
                answer := ""
                relevance := "" }
            let db3 := { db2 with emails := db2.emails ++ [newEmail] }
            let bullets : List BulletPointRec :=
              (parseBulletLines cls.summary).map
                (fun p => ⟨p, f.email_id⟩)
            let db4 :=
              if cls.summary = "" then db3
              else { db3 with bulletpoints := db3.bulletpoints ++ bullets }
            (db4, false, true)
    else
      (db, true, false)
  else
    (db, false, false)

/-- Embedding of the Google mail webhook (receive_mail_notifications):
looks up the SocialAPI by bare email (404 when absent, 500 when
ambiguous), runs email_to_bdd for its user, and only on normal return
POSTs the acknowledgement to Pub/Sub and answers 200; an exception
skips the acknowledgement and answers 500. Returns (state, HTTP
status, whether the Pub/Sub acknowledgement was sent, whether the
classifier ran). -/
def receiveMailNotifications (db : DB) (gmailAddress : String)
    (f : GFetched) (cls : GClassification) (formatted : String) :
    DB × Nat × Bool × Bool :=
  match db.social_apis.filter (fun s => s.email = gmailAddress) with
  | [] => (db, 404, false, false)
  | [sapi] =>
    match email_to_bdd db sapi.user f cls formatted with
    | (db2, true, c) => (db2, 500, false, c)
    | (db2, false, c) => (db2, 200, true, c)
  | _ => (db, 500, false, false)

/-! ## Statement helpers -/

/-- Number of Email rows carrying a given provider id. -/
def countProvider (db : DB) (pid : String) : Nat :=
  (db.emails.filter (fun e => e.provider_id = pid)).length

/-- One ingestion request of the Microsoft worker together with its
external-world oracle. -/
structure IngestReq where
  user : Nat
  email : String
  id_email : String
  inp : IngestInputs

/-- The database state after one email_to_db call (normal return or
exception leaves the recorded exit state either way). -/
def ingestStep (db : DB) (q : IngestReq) : DB :=
  (email_to_db db q.user q.email q.id_email q.inp).1

/-- The database state after a sequence of ingestion calls. -/
def ingestSeq (db : DB) (qs : List IngestReq) : DB :=
  qs.foldl ingestStep db

/-- Whether the first sender row matching the address has at least one
rule with the block flag, i.e. the premise of the block-rule claim as
email_to_db evaluates it. -/
def blockedSender (db : DB) (from_email : String) : Bool :=
  (senderRules db from_email).any (fun r => r.block)

/-- The category carried out of a block-free pass over the rules:
every rule holding a category overwrites the accumulator, so the last
one wins. -/
def lastCat : List RuleRec → CategoryRec → CategoryRec
  | [], cat => cat
  | r :: rest, cat =>
    match r.category with
    | some c => lastCat rest c
    | none => lastCat rest cat

/-- Whether some rule of the list carries a category. -/
def hasCat : List RuleRec → Bool
  | [] => false
  | r :: rest =>
    match r.category with
    | some _ => true
    | none => hasCat rest

/-! ## Concrete fixtures used by witnesses and counterexamples -/

/-- Empty database state. -/
def emptyDB : DB := ⟨[], [], 0, [], [], [], [], [], [], [], []⟩

/-- Sender fixture. -/
def senderSpam : SenderRec := ⟨1, "spam@x", "Spam"⟩

/-- Default category fixture for user 0. -/
def catDefault : CategoryRec := ⟨DEFAULT_CATEGORY, 0⟩

/-- Category fixture A. -/
def catA : CategoryRec := ⟨"A", 0⟩

/-- Category fixture B. -/
def catB : CategoryRec := ⟨"B", 0⟩

/-- SocialAPI fixture for user 0. -/
def sapiU : SocialAPIRec := ⟨0, "u@x", "microsoft", "tok", "enc", none⟩

/-- Preference fixture for user 0. -/
def prefU : PreferenceRec := ⟨0, "english"⟩

/-- Microsoft listener fixture. -/
def listener1 : ListenerRec := ⟨"sub1", 0, "u@x"⟩

/-- Fetched-mail oracle fixture: a plain message from the spam sender. -/
def fixtureFetched : FetchedMail :=
  ⟨"Subject", "Spam", "spam@x", "hello", none, "link", false, false⟩

/-- Classifier oracle fixture. -/
def fixtureCls : Classification :=
  ⟨"A", [("UrgentWorkInformation", 60)], "ans", [], "short", "high"⟩

/-- Summarizer oracle fixture. -/
def fixtureSumm : SummarizeResult := ⟨"cat", "org", "top", [], []⟩

/-- Ingestion oracle fixture: valid token probe, plain message. -/
def fixtureInputs : IngestInputs :=
  ⟨⟨true, none⟩, fixtureFetched, fixtureCls, fixtureSumm⟩

/-- Blocking rule on the spam sender. -/
def blockRule : RuleRec := ⟨1, 0, true, none⟩

/-- Non-blocking rule forcing category A. -/
def ruleA : RuleRec := ⟨1, 0, false, some catA⟩

/-- Non-blocking rule forcing category B. -/
def ruleB : RuleRec := ⟨1, 0, false, some catB⟩

/-- Database with a blocking rule on the spam sender. -/
def c3db : DB :=
  { emptyDB with
    senders := [senderSpam]
    rules := [blockRule]
    categories := [catDefault]
    preferences := [prefU]
    social_apis := [sapiU]
    listeners := [listener1] }

/-- Database with two category rules on the spam sender. -/
def c4db : DB :=
  { emptyDB with
    senders := [senderSpam]
    rules := [ruleA, ruleB]
    categories := [catDefault, catA, catB]
    preferences := [prefU]
    social_apis := [sapiU]
    listeners := [listener1] }

/-- Valid created-message notification fixture. -/
def msCreated : MsNotification :=
  ⟨MICROSOFT_CLIENT_STATE, "created", "m1", "sub1", "", 0⟩

/-- Valid deleted-message notification fixture. -/
def msDeleted : MsNotification :=
  ⟨MICROSOFT_CLIENT_STATE, "deleted", "m1", "sub1", "", 0⟩

/-- Notification fixture with a mismatched clientState. -/
def msWrongState : MsNotification :=
  ⟨"wrong-state", "created", "m1", "sub1", "", 0⟩

/-- Lifecycle notification fixture expiring 10 minutes after time 0. -/
def msLifecycle : MsNotification :=
  ⟨MICROSOFT_CLIENT_STATE, "updated", "m1", "sub1",
   "reauthorizationRequired", 10⟩

/-- Persisted email fixture with provider id m1. -/
def emailM1 : EmailRec :=
  ⟨"m1", MICROSOFT_PROVIDER, "s", "c", "subj", IMPORTANT, false, false, 1,
   catDefault, 0, none, "w", false, "a", "r"⟩

/-- Database already holding the email m1. -/
def c2db : DB := { emptyDB with emails := [emailM1], social_apis := [sapiU] }

/-- Ingestion request fixture for the duplicate of m1. -/
def c2req : IngestReq := ⟨0, "u@x", "m1", fixtureInputs⟩

/-- Database holding only the email m1. -/
def c8db : DB := { emptyDB with emails := [emailM1] }

/-- Google fetched-message fixture from the spam sender. -/
def gFetchSpam : GFetched := ⟨"S", "Spam", "spam@x", "body", "g1"⟩

/-- Google classifier oracle fixture. -/
def gClsFixture : GClassification :=
  ⟨"A", [IMPORTANT], "ans", "- point", "short", "rel", "expl"⟩

/-- Google-side database with a blocking rule on the spam sender. -/
def gdb : DB :=
  { emptyDB with
    senders := [senderSpam]
    rules := [blockRule]
    social_apis := [⟨0, "g@x", "google", "t", "r", none⟩] }

/-- Importance distribution fixture with a dominant urgent value. -/
def c1Dist : List (String × Nat) :=
  [("UrgentWorkInformation", 60), ("RoutineWorkUpdates", 10),
   ("InternalCommunications", 5), ("Promotional", 30), ("News", 0)]

/-! ## Lemmas and theorems -/

theorem applyTokenSave_emails (db : DB) (u : Nat) (e : String)
    (o : Option SocialAPIRec) : (applyTokenSave db u e o).emails = db.emails := by
  cases o <;> rfl

theorem applyTokenSave_senders (db : DB) (u : Nat) (e : String)
    (o : Option SocialAPIRec) : (applyTokenSave db u e o).senders = db.senders := by
  cases o <;> rfl

theorem applyTokenSave_rules (db : DB) (u : Nat) (e : String)
    (o : Option SocialAPIRec) : (applyTokenSave db u e o).rules = db.rules := by
  cases o <;> rfl

theorem applyTokenSave_categories (db : DB) (u : Nat) (e : String)
    (o : Option SocialAPIRec) :
    (applyTokenSave db u e o).categories = db.categories := by
  cases o <;> rfl

theorem applyTokenSave_keypoints (db : DB) (u : Nat) (e : String)
    (o : Option SocialAPIRec) :
    (applyTokenSave db u e o).keypoints = db.keypoints := by
  cases o <;> rfl

theorem applyTokenSave_preferences (db : DB) (u : Nat) (e : String)
    (o : Option SocialAPIRec) :
    (applyTokenSave db u e o).preferences = db.preferences := by
  cases o <;> rfl

theorem priorityLoop_snd_le (l : List (String × Nat)) (imp : String)
    (maxp : Nat) : maxp ≤ (priorityLoop l imp maxp).2 := by
  induction l generalizing imp maxp with
  | nil => exact Nat.le_refl _
  | cons kv rest ih =>
    simp only [priorityLoop]
    split
    · exact Nat.le_trans (Nat.le_of_lt (by assumption)) (ih _ _)
    · exact ih _ _

theorem priorityLoop_mem_le (l : List (String × Nat)) (imp : String)
    (maxp : Nat) : ∀ kv ∈ l, kv.2 ≤ (priorityLoop l imp maxp).2 := by
  induction l generalizing imp maxp with
  | nil => intro kv h; exact absurd h (List.not_mem_nil kv)
  | cons hd rest ih =>
    intro kv hkv
    simp only [priorityLoop]
    rcases List.mem_cons.mp hkv with h | h
    · subst h
      split
      · exact priorityLoop_snd_le rest _ _
      · exact Nat.le_trans (Nat.le_of_not_lt (by assumption))
          (priorityLoop_snd_le rest _ _)
    · split
      · exact ih _ _ kv h
      · exact ih _ _ kv h

theorem priorityLoop_const (l : List (String × Nat)) (imp : String)
    (maxp : Nat) (h : ∀ kv ∈ l, kv.2 ≤ maxp) :
    priorityLoop l imp maxp = (imp, maxp) := by
  induction l with
  | nil => rfl
  | cons hd rest ih =>
    simp only [priorityLoop]
    rw [if_neg (Nat.not_lt.mpr (h hd (List.mem_cons_self hd rest)))]
    exact ih (fun kv hkv => h kv (List.mem_cons_of_mem hd hkv))

theorem priorityLoop_argmax (l : List (String × Nat)) (imp : String)
    (maxp : Nat) (h : ∃ kv ∈ l, maxp < kv.2) :
    ∃ kv ∈ l, kv.2 = (priorityLoop l imp maxp).2 ∧
      (priorityLoop l imp maxp).1 = mapImportanceKey kv.1 := by
  induction l generalizing imp maxp with
  | nil =>
    obtain ⟨kv, hmem, _⟩ := h
    exact absurd hmem (List.not_mem_nil kv)
  | cons hd rest ih =>
    simp only [priorityLoop]
    by_cases hhd : maxp < hd.2
    · rw [if_pos hhd]
      by_cases hrest : ∃ kv ∈ rest, hd.2 < kv.2
      · obtain ⟨kv, hmem, h1, h2⟩ := ih (mapImportanceKey hd.1) hd.2 hrest
        exact ⟨kv, List.mem_cons_of_mem hd hmem, h1, h2⟩
      · push_neg at hrest
        rw [priorityLoop_const rest (mapImportanceKey hd.1) hd.2 hrest]
        exact ⟨hd, List.mem_cons_self hd rest, rfl, rfl⟩
    · rw [if_neg hhd]
      obtain ⟨kv, hmem, hgt⟩ := h
      rcases List.mem_cons.mp hmem with heq | hmemr
      · subst heq; exact absurd hgt hhd
      · obtain ⟨kv2, hmem2, h1, h2⟩ := ih imp maxp ⟨kv, hmemr, hgt⟩
        exact ⟨kv2, List.mem_cons_of_mem hd hmem2, h1, h2⟩

/-- C1: for every importance distribution over the five keys, the
priority projection yields important whenever UrgentWorkInformation is
at least 50; otherwise a key holding the maximum value is picked and
mapped through mapImportanceKey (Promotional and News to useless,
RoutineWorkUpdates and InternalCommunications to information,
UrgentWorkInformation to important); when all values are 0 the result
is information; and the projection is a pure function of the
distribution. -/
theorem priority_projection_correct (d : List (String × Nat)) (u : Nat)
    (hu : dictLookup d "UrgentWorkInformation" = some u)
    (_hkeys : List.Perm (d.map Prod.fst)
      ["UrgentWorkInformation", "RoutineWorkUpdates",
       "InternalCommunications", "Promotional", "News"]) :
    (50 ≤ u → computeImportance d = some IMPORTANT)
    ∧ (u < 50 → (∀ kv ∈ d, kv.2 = 0) → computeImportance d = some INFORMATION)
    ∧ (u < 50 → (∃ kv ∈ d, 0 < kv.2) →
        ∃ kv ∈ d, (∀ kv2 ∈ d, kv2.2 ≤ kv.2) ∧
          computeImportance d = some (mapImportanceKey kv.1))
    ∧ (∀ d2, d2 = d → computeImportance d2 = computeImportance d) := by
  refine ⟨?_, ?_, ?_, fun d2 h => by rw [h]⟩
  · intro h50
    simp only [computeImportance, hu]
    rw [if_pos h50]
  · intro h50 hz
    simp only [computeImportance, hu]
    rw [if_neg (Nat.not_le.mpr h50)]
    have hloop : priorityLoop d "" 0 = ("", 0) :=
      priorityLoop_const d "" 0 (fun kv hkv => Nat.le_of_eq (hz kv hkv))
    simp [hloop]
  · intro h50 hex
    obtain ⟨kv, hmem, hsnd, hfst⟩ := priorityLoop_argmax d "" 0 hex
    have hpos : 0 < (priorityLoop d "" 0).2 := by
      obtain ⟨kv0, hmem0, hp0⟩ := hex
      exact Nat.lt_of_lt_of_le hp0 (priorityLoop_mem_le d "" 0 kv0 hmem0)
    refine ⟨kv, hmem, ?_, ?_⟩
    · intro kv2 hkv2
      exact hsnd ▸ priorityLoop_mem_le d "" 0 kv2 hkv2
    · simp only [computeImportance, hu]
      rw [if_neg (Nat.not_le.mpr h50)]
      rw [if_neg (Nat.pos_iff_ne_zero.mp hpos), hfst]

/-- Witness for C1 at a concrete distribution: the urgent value 60
dominates and the projection yields important. -/
theorem priority_projection_correct_witness :
    50 ≤ 60 ∧ computeImportance c1Dist = some IMPORTANT :=
  ⟨by decide,
   (priority_projection_correct c1Dist 60 (by decide) (by decide)).1
     (by decide)⟩

theorem dropWhile_replicate_space (k : Nat) (l : List Nat) :
    List.dropWhile isSpaceByte (List.replicate k 32 ++ l) =
      List.dropWhile isSpaceByte l := by
  induction k with
  | zero => rfl
  | succ n ih =>
    rw [List.replicate_succ, List.cons_append, List.dropWhile_cons]
    simp only [isSpaceByte]
    rw [if_pos (by decide)]
    exact ih

theorem rstripBytes_append_spaces (p : List Nat) (k : Nat) :
    rstripBytes (p ++ List.replicate k 32) = rstripBytes p := by
  unfold rstripBytes
  rw [List.reverse_append, List.reverse_replicate, dropWhile_replicate_space]

theorem roundtrip_unsalted_eq_rstrip (aesE aesD b64E b64D : List Nat → List Nat)
    (hA : ∀ x, aesD (aesE x) = x) (hB : ∀ x, b64D (b64E x) = x)
    (p : List Nat) :
    decrypt_unsalted aesD b64D (encrypt_unsalted aesE b64E p) =
      rstripBytes p := by
  unfold decrypt_unsalted encrypt_unsalted padPlaintext
  rw [hB, hA, rstripBytes_append_spaces]

theorem rstripBytes_eq_self (p : List Nat) (a : Nat)
    (h : p.getLast? = some a) (ha : isSpaceByte a = false) :
    rstripBytes p = p := by
  unfold rstripBytes
  have hrev : p.reverse.head? = some a := by
    rw [List.head?_reverse]; exact h
  cases hq : p.reverse with
  | nil => rw [hq] at hrev; exact absurd hrev (by simp)
  | cons b t =>
    rw [hq] at hrev
    have hb : b = a := by
      simpa using hrev
    subst hb
    rw [List.dropWhile_cons, ha]
    simp only [Bool.false_eq_true, if_false]
    rw [← hq, List.reverse_reverse]

/-- C6 counterexample: with the identity maps standing for the cipher
and the codec (both satisfy the required inverse laws, first conjunct),
the non-empty plaintext consisting of the bytes of the two characters
a and space does not survive the unsalted round trip: the rstrip
unpadding also eats the trailing space of the plaintext itself. -/
theorem vault_roundtrip_counterexample :
    (∀ x : List Nat, id (id x) = x)
    ∧ ¬ ([97, 32] : List Nat) = []
    ∧ decrypt_unsalted id id (encrypt_unsalted id id [97, 32]) = [97]
    ∧ ¬ ([97] : List Nat) = [97, 32] :=
  ⟨fun _ => rfl, by decide, by decide, by decide⟩

/-- C6 (amended): the salted Fernet pair round-trips every plaintext;
the unsalted AES pair round-trips every plaintext whose last byte is
not whitespace (the space padding is removed with bytes.rstrip, which
also strips trailing whitespace belonging to the plaintext itself). -/
theorem vault_roundtrip (fernetE fernetD aesE aesD b64E b64D :
      List Nat → List Nat)
    (hF : ∀ x, fernetD (fernetE x) = x)
    (hA : ∀ x, aesD (aesE x) = x) (hB : ∀ x, b64D (b64E x) = x)
    (p : List Nat) (a : Nat) (hp : p.getLast? = some a)
    (ha : isSpaceByte a = false) :
    (∀ q : List Nat, decrypt_text fernetD (encrypt_text fernetE q) = q)
    ∧ decrypt_unsalted aesD b64D (encrypt_unsalted aesE b64E p) = p := by
  constructor
  · intro q
    exact hF q
  · rw [roundtrip_unsalted_eq_rstrip aesE aesD b64E b64D hA hB p]
    exact rstripBytes_eq_self p a hp ha

/-- Witness for C6 at concrete plaintexts: identity maps satisfy the
inverse laws and the byte string of the single character a survives
both round trips. -/
theorem vault_roundtrip_witness :
    decrypt_text id (encrypt_text id [98]) = [98]
    ∧ decrypt_unsalted id id (encrypt_unsalted id id [97]) = [97] := by
  have h := vault_roundtrip id id id id id id (fun _ => rfl) (fun _ => rfl)
    (fun _ => rfl) [97] 97 rfl (by decide)
  exact ⟨h.1 [98], h.2⟩

theorem filter_not_filter (l : List EmailRec) (pid : String) :
    ((l.filter (fun e => ¬ e.provider_id = pid)).filter
      (fun e => e.provider_id = pid)) = [] := by
  induction l with
  | nil => rfl
  | cons e t ih =>
    by_cases h : e.provider_id = pid <;> simp [List.filter_cons, h, ih]

/-- C7: token refresh first consults the validity probe; on probe
success the stored access token is returned with no save of the
SocialAPI row, and on provider rejection of the refresh it returns
none with no save, so the row keeps its prior access_token and
refresh_token (applying an absent save leaves the database unchanged). -/
theorem refresh_probe_and_failure (sapi : SocialAPIRec) (o : RefreshOracle)
    (db : DB) (user : Nat) (email : String) :
    (o.token_valid = true →
      refresh_access_token sapi o = (some sapi.access_token, none))
    ∧ (o.token_valid = false → o.response_access_token = none →
      refresh_access_token sapi o = (none, none))
    ∧ applyTokenSave db user email none = db := by
  refine ⟨fun h => ?_, fun h h2 => ?_, rfl⟩
  · simp [refresh_access_token, h]
  · simp [refresh_access_token, h, h2]

/-- Witness for C7: a valid probe returns the stored token unchanged
and a rejected refresh returns none. -/
theorem refresh_probe_and_failure_witness :
    refresh_access_token sapiU ⟨true, none⟩ = (some "tok", none)
    ∧ refresh_access_token sapiU ⟨false, none⟩ = (none, none) := by
  have h1 := (refresh_probe_and_failure sapiU ⟨true, none⟩ emptyDB 0 "u@x").1
    rfl
  have h2 := (refresh_probe_and_failure sapiU ⟨false, none⟩
    emptyDB 0 "u@x").2.1 rfl rfl
  exact ⟨h1, h2⟩

/-- C8 counterexample: a deleted-delivery for a provider id that was
never ingested is answered with the 500 error JSON of the except
branch (the DoesNotExist escapes to the catch-all), not handled
without error as the claim states. -/
theorem deletion_missing_counterexample :
    microsoftEmailNotification emptyDB none (some [msDeleted])
      (fun _ => fixtureInputs) = ⟨emptyDB, .json 500, false, 0⟩
    ∧ ¬ MsResponse.json 500 = MsResponse.json 202 := by
  exact ⟨by decide, by decide⟩

/-- C8 (amended): a deleted-delivery whose provider id matches exactly
one Email deletes it (with cascading KeyPoint and BulletPoint rows)
and answers 202, after which no Email with that provider id remains;
a deleted-delivery for an absent provider id leaves the state
unchanged but is answered with the 500 error JSON instead of being
acknowledged. -/
theorem deletion_behavior (db : DB) (n0 : MsNotification)
    (rest : List MsNotification) (inp : Nat → IngestInputs)
    (hcs : n0.clientState = MICROSOFT_CLIENT_STATE)
    (hct : n0.changeType = "deleted") :
    (∀ e, djangoGet (db.emails.filter
        (fun x => x.provider_id = n0.resourceId)) = some e →
      microsoftEmailNotification db none (some (n0 :: rest)) inp =
        ⟨deleteEmailCascade db n0.resourceId, .json 202, false, 0⟩
      ∧ countProvider (deleteEmailCascade db n0.resourceId)
          n0.resourceId = 0)
    ∧ (db.emails.filter (fun x => x.provider_id = n0.resourceId) = [] →
      microsoftEmailNotification db none (some (n0 :: rest)) inp =
        ⟨db, .json 500, false, 0⟩) := by
  constructor
  · intro e he
    constructor
    · simp only [microsoftEmailNotification, List.head?]
      rw [if_pos hcs, if_pos hct, he]
    · simp only [countProvider, deleteEmailCascade]
      rw [filter_not_filter]
      rfl
  · intro he
    simp only [microsoftEmailNotification, List.head?]
    rw [if_pos hcs, if_pos hct, he]
    rfl

/-- Witness for C8 at a concrete store holding the email m1: the
deleted-delivery removes it and answers 202. -/
theorem deletion_behavior_witness :
    microsoftEmailNotification c8db none (some [msDeleted])
      (fun _ => fixtureInputs) =
        ⟨deleteEmailCascade c8db "m1", .json 202, false, 0⟩
    ∧ countProvider (deleteEmailCascade c8db "m1") "m1" = 0 :=
  (deletion_behavior c8db msDeleted [] (fun _ => fixtureInputs) rfl rfl).1
    emailM1 (by decide)

/-- C5 counterexample: a delivery whose clientState does not match the
configured constant is answered by the mail handler with a 500 error
JSON response, so an error response is surfaced to the provider,
contrary to the claim. -/
theorem clientstate_mismatch_counterexample :
    microsoftEmailNotification emptyDB none (some [msWrongState])
      (fun _ => fixtureInputs) = ⟨emptyDB, .json 500, false, 0⟩
    ∧ ¬ MsResponse.json 500 = MsResponse.json 202 := by
  exact ⟨by decide, by decide⟩

/-- C5 (amended): a mismatched clientState produces no side effects in
any of the three handlers (no Email created or deleted, no worker
dispatched, no renew or reauthorize call), but the mail and contact
handlers answer with a 500 error JSON (and log no warning) while the
subscription-lifecycle handler answers 202. -/
theorem clientstate_mismatch_behavior (db : DB) (n0 : MsNotification)
    (rest : List MsNotification) (inp : Nat → IngestInputs)
    (refreshO : RefreshOracle) (graphContact : Option (String × String))
    (now : Int) (h : ¬ n0.clientState = MICROSOFT_CLIENT_STATE) :
    microsoftEmailNotification db none (some (n0 :: rest)) inp =
      ⟨db, .json 500, false, 0⟩
    ∧ microsoftContactNotification db none (some (n0 :: rest)) refreshO
        graphContact = ⟨db, .json 500⟩
    ∧ microsoftSubscriptionNotification db none (some (n0 :: rest)) now =
      ⟨db, .json 202, [], []⟩ := by
  refine ⟨?_, ?_, ?_⟩
  · simp only [microsoftEmailNotification, List.head?]
    rw [if_neg h]
  · simp only [microsoftContactNotification, List.head?]
    rw [if_neg h]
  · simp only [microsoftSubscriptionNotification, List.head?]
    rw [if_neg h]

/-- Witness for C5 (amended) at the concrete mismatched delivery. -/
theorem clientstate_mismatch_behavior_witness :
    microsoftEmailNotification emptyDB none (some [msWrongState])
      (fun _ => fixtureInputs) = ⟨emptyDB, .json 500, false, 0⟩
    ∧ microsoftContactNotification emptyDB none (some [msWrongState])
        ⟨true, none⟩ none = ⟨emptyDB, .json 500⟩
    ∧ microsoftSubscriptionNotification emptyDB none (some [msWrongState])
        0 = ⟨emptyDB, .json 202, [], []⟩ :=
  clientstate_mismatch_behavior emptyDB msWrongState []
    (fun _ => fixtureInputs) ⟨true, none⟩ none 0 (by decide)

/-- C9: subscriptions are created and renewed with an expiration 4230
minutes in the future (mail subscribe, contact subscribe and the renew
PATCH all request now plus 4230), and a lifecycle notification whose
expiration lies fewer than 15 minutes away triggers exactly one renew
call whose requested expiry advances the reported one by at least 4200
minutes. -/
theorem subscription_renewal_spec (now : Int) (db : DB)
    (n0 : MsNotification) (rest : List MsNotification) (sub : ListenerRec)
    (hcs : n0.clientState = MICROSOFT_CLIENT_STATE)
    (hsub : djangoGet (db.listeners.filter
      (fun l => l.subscription_id = n0.subscriptionId)) = some sub)
    (hexp : n0.subscriptionExpirationDateTime - now < 15) :
    subscribeMailExpiration now - now = 4230
    ∧ subscribeContactExpiration now - now = 4230
    ∧ renewRequestExpiration now - now = 4230
    ∧ (microsoftSubscriptionNotification db none (some (n0 :: rest))
        now).renewCalls = [(n0.subscriptionId, now + 4230)]
    ∧ 4200 ≤ (now + 4230) - n0.subscriptionExpirationDateTime := by
  refine ⟨?_, ?_, ?_, ?_, ?_⟩
  · simp [subscribeMailExpiration, calculate_expiration_date]
  · simp [subscribeContactExpiration, calculate_expiration_date]
  · simp [renewRequestExpiration, calculate_expiration_date]
  · simp only [microsoftSubscriptionNotification, List.head?]
    rw [if_pos hcs, hsub]
    rw [if_pos (by omega : n0.subscriptionExpirationDateTime - now ≤ 15)]
    simp [renewRequestExpiration, calculate_expiration_date]
  · omega

/-- Witness for C9 at a concrete lifecycle notification expiring 10
minutes after time 0 on a store holding the listener. -/
theorem subscription_renewal_spec_witness :
    subscribeMailExpiration 0 - 0 = 4230
    ∧ subscribeContactExpiration 0 - 0 = 4230
    ∧ renewRequestExpiration 0 - 0 = 4230
    ∧ (microsoftSubscriptionNotification c3db none (some [msLifecycle])
        0).renewCalls = [("sub1", (0 : Int) + 4230)]
    ∧ (4200 : Int) ≤ (0 + 4230) - 10 :=
  subscription_renewal_spec 0 c3db msLifecycle [] listener1 rfl (by decide)
    (by decide)

/-- C10: each of the three Microsoft webhook handlers (mail, contact,
subscription lifecycle) examines only the first element of the value
array; deliveries differing only in the notifications after the first
are processed identically, so every later notification of a batch is
silently ignored. -/
theorem handlers_first_notification_only (db : DB) (vt : Option String)
    (n0 : MsNotification) (rest rest2 : List MsNotification)
    (inp : Nat → IngestInputs) (refreshO : RefreshOracle)
    (graphContact : Option (String × String)) (now : Int) :
    microsoftEmailNotification db vt (some (n0 :: rest)) inp =
      microsoftEmailNotification db vt (some (n0 :: rest2)) inp
    ∧ microsoftContactNotification db vt (some (n0 :: rest)) refreshO
        graphContact =
      microsoftContactNotification db vt (some (n0 :: rest2)) refreshO
        graphContact
    ∧ microsoftSubscriptionNotification db vt (some (n0 :: rest)) now =
      microsoftSubscriptionNotification db vt (some (n0 :: rest2)) now := by
  cases vt <;> exact ⟨rfl, rfl, rfl⟩

set_option maxHeartbeats 1000000 in
theorem email_to_db_emails_shape (db : DB) (user : Nat) (email : String)
    (id_email : String) (inp : IngestInputs) :
    (email_to_db db user email id_email inp).1.emails = db.emails ∨
    (countProvider db id_email = 0 ∧
      ∃ e : EmailRec,
        (email_to_db db user email id_email inp).1.emails =
          db.emails ++ [e] ∧ e.provider_id = id_email) := by
  unfold email_to_db
  split
  · left; rfl
  · dsimp only
    repeat' split
    all_goals try (left; exact applyTokenSave_emails db user email _)
    all_goals
      simp only [applyTokenSave_emails, ne_eq, not_not] at *
    all_goals
      refine Or.inr ⟨?_, ?_⟩
    all_goals
      try (simp only [countProvider, List.length_eq_zero]; assumption)
    all_goals
      dsimp only
    all_goals
      exact ⟨_, rfl, rfl⟩

theorem ingestStep_count_le (db : DB) (q : IngestReq) (pid : String)
    (h : countProvider db pid ≤ 1) :
    countProvider (ingestStep db q) pid ≤ 1 := by
  unfold ingestStep
  rcases email_to_db_emails_shape db q.user q.email q.id_email q.inp with
    heq | ⟨hzero, e, heq, hpid⟩
  · simp only [countProvider] at *
    rw [heq]
    exact h
  · simp only [countProvider] at *
    rw [heq, List.filter_append, List.length_append]
    by_cases hp : pid = q.id_email
    · subst hp
      rw [List.length_eq_zero.mp hzero]
      simp only [List.length_nil, Nat.zero_add]
      exact List.length_filter_le _ _
    · have he : ¬ e.provider_id = pid := by
        rw [hpid]
        exact fun hh => hp hh.symm
      simp only [List.filter_cons, he, decide_eq_true_eq, if_neg,
        List.filter_nil, List.length_nil, Nat.add_zero]
      simpa using h

theorem ingestSeq_count_le (db : DB) (qs : List IngestReq)
    (h : ∀ pid, countProvider db pid ≤ 1) :
    ∀ pid, countProvider (ingestSeq db qs) pid ≤ 1 := by
  induction qs generalizing db with
  | nil => exact h
  | cons q rest ih =>
    exact ih (ingestStep db q) (fun pid => ingestStep_count_le db q pid (h pid))

theorem email_to_db_dup (db : DB) (user : Nat) (email : String)
    (id_email : String) (inp : IngestInputs) (sapi : SocialAPIRec)
    (hs : djangoGet (db.social_apis.filter
      (fun s => s.user = user ∧ s.email = email)) = some sapi)
    (hdup : 1 ≤ countProvider db id_email) :
    (email_to_db db user email id_email inp).1.emails = db.emails
    ∧ (email_to_db db user email id_email inp).2 =
        (PyOutcome.ret DbResult.rtrue, false) := by
  have hfl : ¬ db.emails.filter (fun e => e.provider_id = id_email) = [] := by
    intro hnil
    simp only [countProvider, hnil, List.length_nil] at hdup
    exact absurd hdup (by decide)
  unfold email_to_db
  rw [hs]
  dsimp only
  rw [if_pos (by rw [applyTokenSave_emails]; exact hfl)]
  exact ⟨applyTokenSave_emails db user email _, rfl⟩

/-- C2: starting from any store where each provider id occurs at most
once, any sequence of ingestion calls preserves that bound; and an
ingestion whose provider id already exists in the store is an
idempotent no-op: the email table is unchanged, the LLM is not
invoked, and the call returns True. -/
theorem provider_id_unique_and_idempotent (db : DB) (qs : List IngestReq)
    (h : ∀ pid, countProvider db pid ≤ 1) :
    (∀ pid, countProvider (ingestSeq db qs) pid ≤ 1)
    ∧ (∀ (db2 : DB) (q : IngestReq) (sapi : SocialAPIRec),
        djangoGet (db2.social_apis.filter
          (fun s => s.user = q.user ∧ s.email = q.email)) = some sapi →
        1 ≤ countProvider db2 q.id_email →
        (email_to_db db2 q.user q.email q.id_email q.inp).1.emails =
          db2.emails
        ∧ (email_to_db db2 q.user q.email q.id_email q.inp).2 =
          (PyOutcome.ret DbResult.rtrue, false)) :=
  ⟨ingestSeq_count_le db qs h,
   fun db2 q sapi hs hd =>
     email_to_db_dup db2 q.user q.email q.id_email q.inp sapi hs hd⟩

/-- Witness for C2 on a concrete store already holding the email m1:
re-ingesting m1 leaves the email table unchanged, skips the LLM and
reports success, and the uniqueness bound holds after the sequence. -/
theorem provider_id_unique_and_idempotent_witness :
    countProvider (ingestSeq c2db [c2req]) "m1" ≤ 1
    ∧ (email_to_db c2db 0 "u@x" "m1" fixtureInputs).1.emails = c2db.emails
    ∧ (email_to_db c2db 0 "u@x" "m1" fixtureInputs).2 =
        (PyOutcome.ret DbResult.rtrue, false) := by
  have h := provider_id_unique_and_idempotent c2db [c2req]
    (fun pid => List.length_filter_le _ _)
  have h2 := h.2 c2db c2req sapiU (by decide) (by decide)
  exact ⟨h.1 "m1", h2.1, h2.2⟩

theorem ruleLoop_blocked (rs : List RuleRec) (cat : CategoryRec) (rc : Bool)
    (h : ∃ r ∈ rs, r.block = true) : (ruleLoop rs cat rc).1 = true := by
  induction rs generalizing cat rc with
  | nil =>
    obtain ⟨r, hm, _⟩ := h
    exact absurd hm (List.not_mem_nil r)
  | cons r rest ih =>
    simp only [ruleLoop]
    by_cases hb : r.block = true
    · rw [if_pos hb]
    · rw [if_neg hb]
      obtain ⟨r2, hm, hb2⟩ := h
      rcases List.mem_cons.mp hm with heq | hm2
      · subst heq
        exact absurd hb2 hb
      · cases hcat : r.category with
        | some c => exact ih c true ⟨r2, hm2, hb2⟩
        | none => exact ih cat rc ⟨r2, hm2, hb2⟩

theorem senderRules_applyTokenSave (db : DB) (u : Nat) (e : String)
    (o : Option SocialAPIRec) (x : String) :
    senderRules (applyTokenSave db u e o) x = senderRules db x := by
  unfold senderRules
  rw [applyTokenSave_senders, applyTokenSave_rules]

theorem blockedSender_ruleLoop (db : DB) (x : String) (cat : CategoryRec)
    (rc : Bool) (hb : blockedSender db x = true) :
    (ruleLoop (senderRules db x) cat rc).1 = true := by
  unfold blockedSender at hb
  obtain ⟨r, hm, hbl⟩ := List.any_eq_true.mp hb
  exact ruleLoop_blocked _ cat rc ⟨r, hm, hbl⟩

set_option maxHeartbeats 1000000 in
theorem email_to_db_blocked_frame (db : DB) (user : Nat) (email : String)
    (id_email : String) (inp : IngestInputs)
    (hb : blockedSender db inp.f.from_email = true) :
    (email_to_db db user email id_email inp).1.emails = db.emails
    ∧ (email_to_db db user email id_email inp).1.keypoints = db.keypoints
    ∧ (email_to_db db user email id_email inp).1.senders = db.senders
    ∧ (email_to_db db user email id_email inp).1.rules = db.rules
    ∧ (email_to_db db user email id_email inp).2.2 = false := by
  unfold email_to_db
  cases hs : djangoGet (db.social_apis.filter
      (fun s => s.user = user ∧ s.email = email)) with
  | none => exact ⟨rfl, rfl, rfl, rfl, rfl⟩
  | some sapi =>
    dsimp only
    by_cases hdup : (applyTokenSave db user email
        (refresh_access_token sapi inp.refresh).2).emails.filter
        (fun e => e.provider_id = id_email) ≠ []
    · rw [if_pos hdup]
      exact ⟨applyTokenSave_emails db user email _,
        applyTokenSave_keypoints db user email _,
        applyTokenSave_senders db user email _,
        applyTokenSave_rules db user email _, rfl⟩
    · rw [if_neg hdup]
      by_cases hdec : inp.f.decoded_data = ""
      · rw [if_pos hdec]
        exact ⟨applyTokenSave_emails db user email _,
          applyTokenSave_keypoints db user email _,
          applyTokenSave_senders db user email _,
          applyTokenSave_rules db user email _, rfl⟩
      · rw [if_neg hdec]
        cases hdef : djangoGet ((applyTokenSave db user email
            (refresh_access_token sapi inp.refresh).2).categories.filter
            (fun c => c.name = DEFAULT_CATEGORY ∧ c.user = user)) with
        | none =>
          exact ⟨applyTokenSave_emails db user email _,
            applyTokenSave_keypoints db user email _,
            applyTokenSave_senders db user email _,
            applyTokenSave_rules db user email _, rfl⟩
        | some defC =>
          dsimp only
          rw [senderRules_applyTokenSave]
          have hloop := blockedSender_ruleLoop db inp.f.from_email defC false
            hb
          split
          · exact ⟨applyTokenSave_emails db user email _,
              applyTokenSave_keypoints db user email _,
              applyTokenSave_senders db user email _,
              applyTokenSave_rules db user email _, rfl⟩
          · next c2 rc2 heq =>
            rw [heq] at hloop
            simp at hloop

theorem blockedSender_frame (db db2 : DB) (x : String)
    (hsend : db2.senders = db.senders) (hrul : db2.rules = db.rules) :
    blockedSender db2 x = blockedSender db x := by
  unfold blockedSender senderRules
  rw [hsend, hrul]

theorem processEmailFuel_blocked (user : Nat) (email : String)
    (id_email : String) (inp : Nat → IngestInputs) (fuel i : Nat) (db : DB)
    (hb : ∀ j, blockedSender db ((inp j).f.from_email) = true) :
    (processEmailFuel user email id_email inp fuel i db).1.emails = db.emails
    ∧ (processEmailFuel user email id_email inp fuel i db).1.keypoints =
        db.keypoints
    ∧ (processEmailFuel user email id_email inp fuel i db).1.senders =
        db.senders
    ∧ (processEmailFuel user email id_email inp fuel i db).1.rules = db.rules
    ∧ (processEmailFuel user email id_email inp fuel i db).2.1 = false := by
  induction fuel generalizing i db with
  | zero => exact ⟨rfl, rfl, rfl, rfl, rfl⟩
  | succ n ih =>
    have hstep := email_to_db_blocked_frame db user email id_email (inp i)
      (hb i)
    simp only [processEmailFuel]
    rcases hq : email_to_db db user email id_email (inp i) with ⟨db2, out, c⟩
    rw [hq] at hstep
    cases out with
    | exn => exact hstep
    | ret r =>
      dsimp only
      by_cases ht : r.truthy = true
      · rw [if_pos ht]
        exact hstep
      · rw [if_neg ht]
        have hb2 : ∀ j, blockedSender db2 ((inp j).f.from_email) = true := by
          intro j
          rw [blockedSender_frame db db2 _ hstep.2.2.1 hstep.2.2.2.1]
          exact hb j
        have hrec := ih (i + 1) db2 hb2
        refine ⟨?_, ?_, ?_, ?_, ?_⟩
        · rw [hrec.1, hstep.1]
        · rw [hrec.2.1, hstep.2.1]
        · rw [hrec.2.2.1, hstep.2.2.1]
        · rw [hrec.2.2.2.1, hstep.2.2.2.1]
        · have hc : c = false := hstep.2.2.2.2
          rw [hc, hrec.2.2.2.2]
          rfl


theorem receiveMail_blocked_500 (db : DB) (gaddr : String) (f : GFetched)
    (cls : GClassification) (formatted : String) (sapi : SocialAPIRec)
    (hsapi : db.social_apis.filter (fun s => s.email = gaddr) = [sapi])
    (hnodup : db.emails.filter (fun e => e.provider_id = f.email_id) = [])
    (hb : blockedSender db f.from_email = true) :
    receiveMailNotifications db gaddr f cls formatted =
      (db, 500, false, false) := by
  have hsender : (db.senders.filter
      (fun s => s.email = f.from_email)).isEmpty = false := by
    unfold blockedSender senderRules at hb
    cases hh : (db.senders.filter (fun s => s.email = f.from_email)) with
    | nil =>
      rw [hh] at hb
      simp [List.head?] at hb
    | cons a t => rfl
  unfold receiveMailNotifications
  rw [hsapi]
  unfold email_to_bdd
  rw [hnodup, hsender]
  rfl

/-- C3 counterexample: on the Google pipeline a message from a sender
with a block rule is not acknowledged as handled: the rule check reads
the block attribute of a queryset and raises, so the webhook answers
500 and never sends the Pub/Sub acknowledgement (although nothing is
persisted and the classifier is not invoked). -/
theorem block_rule_google_counterexample :
    blockedSender gdb gFetchSpam.from_email = true
    ∧ receiveMailNotifications gdb "g@x" gFetchSpam gClsFixture "fmt" =
        (gdb, 500, false, false)
    ∧ ¬ (500 : Nat) = 200 := by
  exact ⟨by decide, by decide, by decide⟩

/-- C3 (amended): on the Microsoft pipeline a delivery whose fetched
message always comes from a sender with a matching block rule is fully
short-circuited: the webhook answers 202, no Email or KeyPoint row is
persisted, and the classifier is never invoked. On the Google pipeline
such a message is neither persisted nor classified either, but the
rule check raises before evaluating any rule, so the webhook answers
500 instead of acknowledging the delivery. -/
theorem block_rule_short_circuit (db : DB) (n0 : MsNotification)
    (rest : List MsNotification) (inp : Nat → IngestInputs) (gdb2 : DB)
    (gaddr : String) (gf : GFetched) (gcls : GClassification)
    (gfmt : String) (gsapi : SocialAPIRec)
    (hcs : n0.clientState = MICROSOFT_CLIENT_STATE)
    (hct : ¬ n0.changeType = "deleted")
    (hb : ∀ j, blockedSender db ((inp j).f.from_email) = true)
    (hgsapi : gdb2.social_apis.filter (fun s => s.email = gaddr) = [gsapi])
    (hgnodup : gdb2.emails.filter
      (fun e => e.provider_id = gf.email_id) = [])
    (hgb : blockedSender gdb2 gf.from_email = true) :
    ((microsoftEmailNotification db none (some (n0 :: rest)) inp).response =
        MsResponse.json 202
      ∧ (microsoftEmailNotification db none (some (n0 :: rest))
          inp).db.emails = db.emails
      ∧ (microsoftEmailNotification db none (some (n0 :: rest))
          inp).db.keypoints = db.keypoints
      ∧ (microsoftEmailNotification db none (some (n0 :: rest))
          inp).classifierCalled = false)
    ∧ receiveMailNotifications gdb2 gaddr gf gcls gfmt =
        (gdb2, 500, false, false) := by
  constructor
  · simp only [microsoftEmailNotification, List.head?_cons]
    rw [if_pos hcs, if_neg hct]
    cases hsub : (db.listeners.filter
        (fun l => l.subscription_id = n0.subscriptionId)).head? with
    | none => exact ⟨rfl, rfl, rfl, rfl⟩
    | some sub =>
      dsimp only
      have hw := processEmailFuel_blocked sub.user sub.email n0.resourceId
        inp MAX_RETRIES 0 db hb
      exact ⟨rfl, hw.1, hw.2.1, hw.2.2.2.2⟩
  · exact receiveMail_blocked_500 gdb2 gaddr gf gcls gfmt gsapi hgsapi
      hgnodup hgb

/-- Witness for C3 (amended) at concrete stores carrying a block rule
on the spam sender, for a Microsoft created-delivery and a Google
delivery. -/
theorem block_rule_short_circuit_witness :
    ((microsoftEmailNotification c3db none (some [msCreated])
        (fun _ => fixtureInputs)).response = MsResponse.json 202
      ∧ (microsoftEmailNotification c3db none (some [msCreated])
          (fun _ => fixtureInputs)).db.emails = c3db.emails
      ∧ (microsoftEmailNotification c3db none (some [msCreated])
          (fun _ => fixtureInputs)).db.keypoints = c3db.keypoints
      ∧ (microsoftEmailNotification c3db none (some [msCreated])
          (fun _ => fixtureInputs)).classifierCalled = false)
    ∧ receiveMailNotifications gdb "g@x" gFetchSpam gClsFixture "fmt" =
        (gdb, 500, false, false) := by
  have hbfix : blockedSender c3db fixtureInputs.f.from_email = true := by
    decide
  exact block_rule_short_circuit c3db msCreated [] (fun _ => fixtureInputs)
    gdb "g@x" gFetchSpam gClsFixture "fmt"
    ⟨0, "g@x", "google", "t", "r", none⟩ rfl (by decide)
    (fun _ => hbfix) (by decide) (by decide) (by decide)

theorem ruleLoop_no_block (rs : List RuleRec) (cat : CategoryRec) (rc : Bool)
    (h : ∀ r ∈ rs, r.block = false) :
    ruleLoop rs cat rc = (false, lastCat rs cat, rc || hasCat rs) := by
  induction rs generalizing cat rc with
  | nil => simp [ruleLoop, lastCat, hasCat]
  | cons r rest ih =>
    simp only [ruleLoop, lastCat, hasCat]
    rw [h r (List.mem_cons_self r rest)]
    simp only [Bool.false_eq_true, if_false]
    cases hc : r.category with
    | some c =>
      dsimp only
      rw [ih c true (fun r2 h2 => h r2 (List.mem_cons_of_mem r h2))]
      simp
    | none =>
      dsimp only
      exact ih cat rc (fun r2 h2 => h r2 (List.mem_cons_of_mem r h2))

theorem getLastD_default_irrel {α : Type} (a : α) (t : List α) (d1 d2 : α) :
    ((a :: t).getLast?).getD d1 = ((a :: t).getLast?).getD d2 := by
  induction t generalizing a with
  | nil => rfl
  | cons b t2 ih =>
    rw [List.getLast?_cons_cons]
    exact ih b

theorem lastCat_eq_getLast (rs : List RuleRec) (cat : CategoryRec) :
    lastCat rs cat = ((rs.filterMap RuleRec.category).getLast?).getD cat := by
  induction rs generalizing cat with
  | nil => rfl
  | cons r rest ih =>
    simp only [lastCat, List.filterMap_cons]
    cases hc : r.category with
    | none =>
      dsimp only
      exact ih cat
    | some c =>
      dsimp only
      rw [ih c]
      cases hq : rest.filterMap RuleRec.category with
      | nil => rfl
      | cons a t => exact (getLastD_default_irrel a t c cat).symm

set_option maxHeartbeats 1000000 in
/-- C4 (amended): for a message whose sender has matching non-blocking
rules at least one of which carries a category, the persisted Email
takes the category of the LAST matching rule with a non-null category
(each such rule overwrites the previous one in the loop), overriding
the classifier topic; the last such category is the getLast of the
rule categories in match order. -/
theorem rule_category_last_wins (db : DB) (user : Nat) (email : String)
    (id_email : String) (inp : IngestInputs) (sapi : SocialAPIRec)
    (defC : CategoryRec) (pref : PreferenceRec) (imp : String)
    (hs : djangoGet (db.social_apis.filter
      (fun s => s.user = user ∧ s.email = email)) = some sapi)
    (hnodup : db.emails.filter (fun e => e.provider_id = id_email) = [])
    (hdec : ¬ inp.f.decoded_data = "")
    (hdef : djangoGet (db.categories.filter
      (fun c => c.name = DEFAULT_CATEGORY ∧ c.user = user)) = some defC)
    (hnb : ∀ r ∈ senderRules db inp.f.from_email, r.block = false)
    (hhc : hasCat (senderRules db inp.f.from_email) = true)
    (hpref : djangoGet (db.preferences.filter
      (fun p => p.user = user)) = some pref)
    (himp : computeImportance inp.cls.importance_dict = some imp) :
    (∃ e : EmailRec,
      (email_to_db db user email id_email inp).1.emails = db.emails ++ [e]
      ∧ e.provider_id = id_email
      ∧ e.category = lastCat (senderRules db inp.f.from_email) defC
      ∧ e.priority = imp
      ∧ (email_to_db db user email id_email inp).2 =
          (PyOutcome.ret DbResult.rtrue, true))
    ∧ lastCat (senderRules db inp.f.from_email) defC =
        (((senderRules db inp.f.from_email).filterMap
          RuleRec.category).getLast?).getD defC := by
  refine ⟨?_, lastCat_eq_getLast _ _⟩
  unfold email_to_db
  rw [hs]
  dsimp only
  rw [applyTokenSave_emails]
  rw [if_neg (fun hcon => hcon hnodup)]
  rw [if_neg hdec]
  rw [applyTokenSave_categories, hdef]
  dsimp only
  rw [senderRules_applyTokenSave]
  rw [ruleLoop_no_block _ defC false hnb, Bool.false_or, hhc]
  dsimp only
  rw [applyTokenSave_preferences, hpref]
  dsimp only
  rw [himp]
  dsimp only
  rw [if_pos rfl]
  dsimp only
  cases hsend : ((applyTokenSave db user email
      (refresh_access_token sapi inp.refresh).2).senders.filter
      (fun s => s.email = inp.f.from_email)).head? with
  | some s =>
    dsimp only
    rw [applyTokenSave_emails]
    split
    all_goals exact ⟨_, rfl, rfl, rfl, rfl, rfl⟩
  | none =>
    dsimp only
    try rw [applyTokenSave_emails]
    split
    all_goals exact ⟨_, rfl, rfl, rfl, rfl, rfl⟩

/-- C4 counterexample: with two non-blocking rules on the sender, the
first forcing category A and the second forcing category B, the
persisted Email carries category B: the last rule with a non-null
category wins, not the first as the claim states. -/
theorem rule_category_first_counterexample :
    ((email_to_db c4db 0 "u@x" "m1" fixtureInputs).1.emails.map
      (fun e => e.category.name)) = ["B"]
    ∧ ¬ ("B" : String) = "A" := by
  exact ⟨by decide, by decide⟩

/-- Witness for C4 (amended) at the concrete two-rule store: the
created email exists, carries provider id m1, category B (the last
rule category) and priority important. -/
theorem rule_category_last_wins_witness :
    (∃ e : EmailRec,
      (email_to_db c4db 0 "u@x" "m1" fixtureInputs).1.emails =
        c4db.emails ++ [e]
      ∧ e.provider_id = "m1"
      ∧ e.category = lastCat (senderRules c4db "spam@x") catDefault
      ∧ e.priority = IMPORTANT
      ∧ (email_to_db c4db 0 "u@x" "m1" fixtureInputs).2 =
          (PyOutcome.ret DbResult.rtrue, true))
    ∧ lastCat (senderRules c4db "spam@x") catDefault =
        (((senderRules c4db "spam@x").filterMap
          RuleRec.category).getLast?).getD catDefault :=
  rule_category_last_wins c4db 0 "u@x" "m1" fixtureInputs sapiU catDefault
    prefU IMPORTANT (by decide) (by decide) (by decide) (by decide)
    (by decide) (by decide) (by decide) (by decide)
